import Mathlib

/-!
Verification development for the longevity-hack frontend: the raw-object
decoders of the client resources, the risk-level utilities and the
results-page sorting/pagination/subscription logic, together with a
spec-modelled risk classifier and server page endpoint for the backend
components that the repository does not ship.

JavaScript numbers are modelled as rationals; NaN, where it matters, is an
explicit extra value.  Names follow the source files.
-/

/-- A JavaScript/JSON primitive value as it can appear in a raw API field
before decoding.  Arrays are modelled separately on the one field that
carries them. -/
inductive JSPrim where
  | null
  | undefined
  | bool (b : Bool)
  | num (q : ℚ)
  | nan
  | str (s : String)
  deriving DecidableEq

/-- JavaScript truthiness: false, 0, NaN, null, undefined and the empty
string are falsy, everything else is truthy. -/
def JSPrim.truthy : JSPrim → Bool
  | .null => false
  | .undefined => false
  | .bool b => b
  | .num q => q != 0
  | .nan => false
  | .str s => s != ""

/-- The JavaScript loose comparison `v != null`: true for every value except
null and undefined. -/
def JSPrim.notNullish : JSPrim → Bool
  | .null => false
  | .undefined => false
  | _ => true

/-- The JavaScript `Number(v)` conversion; `none` stands for NaN.  String
parsing is modelled for integer literals only (the decoded fields never
carry numeric strings in the flows the development reasons about). -/
def JSPrim.toNumberJS : JSPrim → Option ℚ
  | .null => some 0
  | .undefined => none
  | .bool b => some (if b then 1 else 0)
  | .num q => some q
  | .nan => none
  | .str s => if s = "" then some 0 else (s.toInt?).map (fun n => (n : ℚ))

/-- The JavaScript `String(v)` conversion (rationals are rendered with
Lean's printer; no decoded flow depends on the exact digits). -/
def JSPrim.toStringJS : JSPrim → String
  | .null => "null"
  | .undefined => "undefined"
  | .bool b => if b then "true" else "false"
  | .num q => toString q
  | .nan => "NaN"
  | .str s => s

/-- The recurring decoder `obj.f ? Number(obj.f) : null` of resources.ts:
truthiness test, then Number conversion.  A NaN result (possible only for a
truthy non-numeric string) is collapsed into `none` as well. -/
def decodeTruthyNumber (v : JSPrim) : Option ℚ :=
  if v.truthy then v.toNumberJS else none

/-- The recurring decoder `obj.f ? String(obj.f) : null` of resources.ts. -/
def decodeTruthyString (v : JSPrim) : Option String :=
  if v.truthy then some v.toStringJS else none

/-- The decoder `obj.f != null ? Boolean(obj.f) : null` of resources.ts,
used for userHasRiskAllele: nullish check, then truthiness. -/
def decodeNullableBoolean (v : JSPrim) : Option Bool :=
  if v.notNullish then some v.truthy else none

/-- The decoded SNP resource (client resources.ts).  The source field
`annotation` is called `annotationText` here, the only renaming. -/
structure SNP where
  rsid : String
  genotype : String
  chromosome : String
  position : Option ℚ
  annotationText : String
  confidence : String
  sources : List String
  trait : Option String
  importanceScore : Option ℚ
  pValue : Option String
  effectStrength : Option String
  riskAllele : Option String
  clinvarCondition : Option String
  clinvarSignificance : Option ℚ
  oddsRatio : Option ℚ
  riskAlleleFrequency : Option ℚ
  studyDescription : Option String
  userHasRiskAllele : Option Bool
  riskLevel : Option String
  deriving DecidableEq

/-- A raw SNP object as received over the wire, one primitive value per
field.  The array-valued `sources` field is modelled post-cast: `none` for
an absent field, `some` for a present string array (arrays are always
truthy, so `obj.sources || []` keeps any present array). -/
structure RawSNP where
  rsid : JSPrim
  genotype : JSPrim
  chromosome : JSPrim
  position : JSPrim
  annotationText : JSPrim
  confidence : JSPrim
  sources : Option (List String)
  trait : JSPrim
  importanceScore : JSPrim
  pValue : JSPrim
  effectStrength : JSPrim
  riskAllele : JSPrim
  clinvarCondition : JSPrim
  clinvarSignificance : JSPrim
  oddsRatio : JSPrim
  riskAlleleFrequency : JSPrim
  studyDescription : JSPrim
  userHasRiskAllele : JSPrim
  riskLevel : JSPrim
  deriving DecidableEq

/-- SNP.fromObject from resources.ts, field for field: unconditional
String()/Number() coercions for the required fields, truthiness-guarded
decoders for the optional ones, and the nullish check for
userHasRiskAllele. -/
def SNP.fromObject (o : RawSNP) : SNP where
  rsid := o.rsid.toStringJS
  genotype := o.genotype.toStringJS
  chromosome := o.chromosome.toStringJS
  position := o.position.toNumberJS
  annotationText := o.annotationText.toStringJS
  confidence := o.confidence.toStringJS
  sources := o.sources.getD []
  trait := decodeTruthyString o.trait
  importanceScore := decodeTruthyNumber o.importanceScore
  pValue := decodeTruthyString o.pValue
  effectStrength := decodeTruthyString o.effectStrength
  riskAllele := decodeTruthyString o.riskAllele
  clinvarCondition := decodeTruthyString o.clinvarCondition
  clinvarSignificance := decodeTruthyNumber o.clinvarSignificance
  oddsRatio := decodeTruthyNumber o.oddsRatio
  riskAlleleFrequency := decodeTruthyNumber o.riskAlleleFrequency
  studyDescription := decodeTruthyString o.studyDescription
  userHasRiskAllele := decodeNullableBoolean o.userHasRiskAllele
  riskLevel := decodeTruthyString o.riskLevel

/-- The decoded GenomeAnalysisSummary resource (client resources.ts). -/
structure GenomeAnalysisSummary where
  totalSnps : Option ℚ
  matchedSnps : Option ℚ
  totalAssociations : Option ℚ
  clinvarCount : Option ℚ
  deriving DecidableEq

/-- A raw summary object, one primitive value per field. -/
structure RawSummary where
  totalSnps : JSPrim
  matchedSnps : JSPrim
  totalAssociations : JSPrim
  clinvarCount : JSPrim
  deriving DecidableEq

/-- GenomeAnalysisSummary.fromObject from resources.ts: every count uses
the truthiness-guarded Number decoder. -/
def GenomeAnalysisSummary.fromObject (o : RawSummary) : GenomeAnalysisSummary where
  totalSnps := decodeTruthyNumber o.totalSnps
  matchedSnps := decodeTruthyNumber o.matchedSnps
  totalAssociations := decodeTruthyNumber o.totalAssociations
  clinvarCount := decodeTruthyNumber o.clinvarCount

/-- The RiskBucket record returned by getRiskBucket (util.ts). -/
structure RiskBucket where
  label : String
  backgroundColor : String
  color : String
  deriving DecidableEq

/-- getRiskBucket from util.ts: the switch over the five named risk-level
strings, with the Unknown Risk bucket as the default case (null and
undefined inputs are the `none` case here). -/
def getRiskBucket (riskLevel : Option String) : RiskBucket :=
  if riskLevel = some "very_high" then ⟨"Very High Risk", "#FFEBEE", "#C62828"⟩
  else if riskLevel = some "high" then ⟨"High Risk", "#FFE0B2", "#E65100"⟩
  else if riskLevel = some "moderate" then ⟨"Moderately Higher Risk", "#FFF9C4", "#F57F17"⟩
  else if riskLevel = some "slight" then ⟨"Slightly Higher Risk", "#E3F2FD", "#1976D2"⟩
  else if riskLevel = some "lower" then ⟨"Lower Risk", "#E8F5E9", "#2E7D32"⟩
  else ⟨"Unknown Risk", "#F5F5F5", "#666666"⟩

/-- getRiskPriority from util.ts: the switch mapping the five named
risk-level strings to 100, 90, 75, 55, 1, with default 0. -/
def getRiskPriority (riskLevel : Option String) : ℤ :=
  if riskLevel = some "very_high" then 100
  else if riskLevel = some "high" then 90
  else if riskLevel = some "moderate" then 75
  else if riskLevel = some "slight" then 55
  else if riskLevel = some "lower" then 1
  else 0

/-- The four importance levels of the ImportanceBucket record (util.ts). -/
inductive ImportanceLevel where
  | low
  | moderate
  | high
  | critical
  deriving DecidableEq

/-- Numeric position of an importance level in the order
low < moderate < high < critical. -/
def ImportanceLevel.rank : ImportanceLevel → ℕ
  | .low => 0
  | .moderate => 1
  | .high => 2
  | .critical => 3

/-- The ImportanceBucket record returned by getImportanceBucket (util.ts). -/
structure ImportanceBucket where
  label : String
  level : ImportanceLevel
  backgroundColor : String
  color : String
  deriving DecidableEq

/-- getImportanceBucket from util.ts: the threshold chain at 50, 30, 15. -/
def getImportanceBucket (score : ℚ) : ImportanceBucket :=
  if 50 ≤ score then ⟨"Very Strong", .critical, "#FFEBEE", "#C62828"⟩
  else if 30 ≤ score then ⟨"Strong", .high, "#FFF3E0", "#E65100"⟩
  else if 15 ≤ score then ⟨"Moderate", .moderate, "#FFF9C4", "#F57F17"⟩
  else ⟨"Weak", .low, "#E3F2FD", "#1565C0"⟩

/-- Risk priority of an SNP row, as computed inside the sortSnps comparator
(results page). -/
def snpPriority (s : SNP) : ℤ := getRiskPriority s.riskLevel

/-- Importance score of an SNP row with the comparator's null-coalescing
default `a.importanceScore ?? 0`. -/
def snpScore (s : SNP) : ℚ := s.importanceScore.getD 0

/-- The sortSnps comparator as a relation: `a` may come no later than `b`
(comparator value at most 0) iff `a` has strictly higher risk priority, or
equal priority and at least `b`'s score. -/
def snpLE (a b : SNP) : Prop :=
  snpPriority b < snpPriority a ∨
    (snpPriority a = snpPriority b ∧ snpScore b ≤ snpScore a)

instance : DecidableRel snpLE := fun a b => by
  unfold snpLE
  infer_instance

instance : IsTotal SNP snpLE where
  total a b := by
    unfold snpLE
    rcases lt_trichotomy (snpPriority a) (snpPriority b) with h | h | h
    · exact Or.inr (Or.inl h)
    · rcases le_total (snpScore a) (snpScore b) with hs | hs
      · exact Or.inr (Or.inr ⟨h.symm, hs⟩)
      · exact Or.inl (Or.inr ⟨h, hs⟩)
    · exact Or.inl (Or.inl h)

instance : IsTrans SNP snpLE where
  trans a b c hab hbc := by
    unfold snpLE at hab hbc ⊢
    rcases hab with h | ⟨h1, h2⟩ <;> rcases hbc with h3 | ⟨h3, h4⟩
    · exact Or.inl (h3.trans h)
    · exact Or.inl (h3 ▸ h)
    · exact Or.inl (h1 ▸ h3)
    · exact Or.inr ⟨h1.trans h3, h4.trans h2⟩

/-- sortSnps from the results page: a non-mutating sort of the list by the
comparator (descending risk priority, then descending importance score),
modelled as the stable insertion sort that an ECMAScript sort with this
consistent comparator realises. -/
def sortSnps (snps : List SNP) : List SNP := List.insertionSort snpLE snps

/-- The pagination-relevant fields of the CategorySnpsPage resource (client
resources.ts); the identifier and label fields of the source class are
constant strings and carry no pagination content. -/
structure CategorySnpsPage where
  snps : List SNP
  totalCount : ℕ
  offset : ℕ
  limit : ℕ
  deriving DecidableEq

/-- Modelled from the spec: the server side of LongevityClient.listCategorySnps
(the HTTP API layer is outside src/).  Per the spec, pagination is "a stable
offset/limit slice over the one precomputed order, never re-sorted per
request", so the endpoint answers with the slice of the fixed precomputed
per-category order together with its total length. -/
def serverListCategorySnps (order : List SNP) (offset limit : ℕ) : CategorySnpsPage :=
  ⟨(order.drop offset).take limit, order.length, offset, limit⟩

/-- The per-category client state CategorySnpsData (results page). -/
structure CategorySnpsData where
  snps : List SNP
  totalCount : ℕ
  hasMore : Bool
  isLoading : Bool
  deriving DecidableEq

/-- The per-category state installed by toggleGroup when a group is first
expanded: no SNPs yet, the group's totalCount, hasMore iff totalCount > 0. -/
def initialCategoryData (totalCount : ℕ) : CategorySnpsData :=
  ⟨[], totalCount, decide (0 < totalCount), false⟩

/-- One successful loadMore call (results page, success branch): request the
next page at offset = number of SNPs already loaded with limit 20, merge the
page into the loaded list through sortSnps, and recompute hasMore as
loaded-count < totalCount. -/
def loadMore (order : List SNP) (st : CategorySnpsData) : CategorySnpsData :=
  let page := serverListCategorySnps order st.snps.length 20
  let allSnps := sortSnps (st.snps ++ page.snps)
  ⟨allSnps, page.totalCount, decide (allSnps.length < page.totalCount), false⟩

/-- k successive loadMore calls starting from the freshly initialised
category state. -/
def loadMoreIter (order : List SNP) : ℕ → CategorySnpsData
  | 0 => initialCategoryData order.length
  | k + 1 => loadMore order (loadMoreIter order k)

/-- The subscription-related slice of the results-page state. -/
structure SubscriptionViewState where
  subscribedCategories : Finset String
  showSubscriptionPopup : Bool
  deriving DecidableEq

/-- toggleCategorySubscription from the results page: unsubscribe when the
category is subscribed; otherwise, when one subscription already exists,
keep the set unchanged and show the paid-subscription popup; otherwise
subscribe. -/
def toggleCategorySubscription (st : SubscriptionViewState) (categoryId : String) :
    SubscriptionViewState :=
  if categoryId ∈ st.subscribedCategories then
    ⟨st.subscribedCategories.erase categoryId, st.showSubscriptionPopup⟩
  else if 1 ≤ st.subscribedCategories.card then
    ⟨st.subscribedCategories, true⟩
  else
    ⟨insert categoryId st.subscribedCategories, st.showSubscriptionPopup⟩

/-- The six risk levels of the spec, §4.5. -/
inductive RiskLevel where
  | very_high
  | high
  | moderate
  | slight
  | lower
  | unknown
  deriving DecidableEq

/-- Evidence strength as named in the spec's decision table. -/
inductive EvidenceStrength where
  | strong
  | moderate
  | weak
  deriving DecidableEq

/-- Effect size as named in the spec's decision table. -/
inductive EffectSize where
  | high
  | moderate
  | low
  deriving DecidableEq

/-- The inputs of one classification decision, §4.5. -/
structure ClassifierInput where
  hasReferenceMatch : Bool
  userHasRiskAllele : Bool
  evidence : EvidenceStrength
  effectSize : EffectSize
  isRare : Bool
  deriving DecidableEq

/-- Modelled from the spec: the Risk Classifier (a backend component, not
under src/), §4.5: an ordered decision table evaluated top to bottom, first
match wins, default unknown. -/
def classifyRisk (inp : ClassifierInput) : RiskLevel :=
  if inp.hasReferenceMatch = false then .unknown
  else if inp.userHasRiskAllele = false then .lower
  else if inp.evidence = .strong ∧ inp.effectSize = .high ∧ inp.isRare then .very_high
  else if inp.evidence = .strong ∧ (inp.effectSize = .moderate ∨ inp.isRare = false) then .high
  else if inp.evidence = .moderate ∨ inp.isRare = false then .moderate
  else if inp.evidence = .weak ∨ (inp.isRare = false ∧ inp.evidence = .weak) then .slight
  else .unknown

/-- The six risk-level strings in the spec's order, strongest first. -/
def riskLevelStrings : List String :=
  ["very_high", "high", "moderate", "slight", "lower", "unknown"]

/-- Modelled from the spec: the position of a risk level in the spec's order
very_high > high > moderate > slight > lower > unknown, higher is stronger. -/
def specRiskRank (level : String) : ℕ :=
  if level = "very_high" then 5
  else if level = "high" then 4
  else if level = "moderate" then 3
  else if level = "slight" then 2
  else if level = "lower" then 1
  else 0

/-- A raw SNP object with a given importanceScore and userHasRiskAllele
value, every other optional field null, used for concrete evaluations. -/
def rawSNPWith (score : JSPrim) (carrier : JSPrim) : RawSNP :=
  ⟨.str "rs123", .str "AG", .str "1", .num 1000, .str "syn", .str "high",
    some [], .null, score, .null, .null, .null, .null, .null, .null, .null,
    .null, carrier, .null⟩

/-- A small SNP row for concrete evaluations. -/
def mkSNP (rsid : String) (riskLevel : Option String) (score : Option ℚ) : SNP :=
  ⟨rsid, "AG", "1", some 1000, "syn", "high", [], none, score, none, none,
    none, none, none, none, none, none, none, riskLevel⟩

/-- C1: for every list of SNPs, sortSnps returns a permutation of its input
that is ordered by risk-level priority (via getRiskPriority) descending as
the primary key, and among equal priorities by importanceScore descending
with null treated as 0, which is exactly the relation snpLE. -/
theorem sortSnps_perm_and_ordered (l : List SNP) :
    (sortSnps l).Perm l ∧ List.Sorted snpLE (sortSnps l) :=
  ⟨List.perm_insertionSort snpLE l, List.sorted_insertionSort snpLE l⟩

/-- C2: over the six risk-level strings, the spec's order very_high > high >
moderate > slight > lower > unknown and getRiskPriority induce exactly the
same strict comparisons, and the concrete priorities are 100, 90, 75, 55,
1 and 0, with the default (also taken by null/undefined input) being 0. -/
theorem getRiskPriority_matches_spec_order :
    (∀ a ∈ riskLevelStrings, ∀ b ∈ riskLevelStrings,
        specRiskRank a > specRiskRank b ↔
          getRiskPriority (some a) > getRiskPriority (some b))
    ∧ getRiskPriority (some "very_high") = 100
    ∧ getRiskPriority (some "high") = 90
    ∧ getRiskPriority (some "moderate") = 75
    ∧ getRiskPriority (some "slight") = 55
    ∧ getRiskPriority (some "lower") = 1
    ∧ getRiskPriority (some "unknown") = 0
    ∧ getRiskPriority none = 0 := by
  decide

/-- Witness for C2 at the pair (very_high, lower). -/
theorem getRiskPriority_matches_spec_order_witness :
    specRiskRank "very_high" > specRiskRank "lower" ↔
      getRiskPriority (some "very_high") > getRiskPriority (some "lower") :=
  getRiskPriority_matches_spec_order.1 "very_high" (by decide) "lower" (by decide)

/-- C4: getRiskBucket and getRiskPriority are total (they are functions on
all of Option String, where none stands for both null and undefined), and
every input other than the five named level strings is mapped to the
Unknown Risk bucket and priority 0. -/
theorem getRisk_total_default_unknown (v : Option String)
    (h1 : v ≠ some "very_high") (h2 : v ≠ some "high") (h3 : v ≠ some "moderate")
    (h4 : v ≠ some "slight") (h5 : v ≠ some "lower") :
    getRiskBucket v = ⟨"Unknown Risk", "#F5F5F5", "#666666"⟩ ∧ getRiskPriority v = 0 := by
  refine ⟨?_, ?_⟩ <;>
    simp only [getRiskBucket, getRiskPriority, if_neg h1, if_neg h2, if_neg h3,
      if_neg h4, if_neg h5]

/-- Witness for C4 at the unrecognised level string "banana". -/
theorem getRisk_total_default_unknown_witness :
    getRiskBucket (some "banana") = ⟨"Unknown Risk", "#F5F5F5", "#666666"⟩
    ∧ getRiskPriority (some "banana") = 0 :=
  getRisk_total_default_unknown (some "banana") (by decide) (by decide) (by decide)
    (by decide) (by decide)

/-- C6: in the spec's risk-classifier decision table, riskLevel lower is
produced only when the user does not carry the risk allele, and a
non-carrier is never classified very_high, high or moderate. -/
theorem classifyRisk_allele_monotone (inp : ClassifierInput) :
    (classifyRisk inp = .lower → inp.userHasRiskAllele = false)
    ∧ (inp.userHasRiskAllele = false →
        classifyRisk inp ≠ .very_high ∧ classifyRisk inp ≠ .high ∧
          classifyRisk inp ≠ .moderate) := by
  rcases inp with ⟨m, u, e, eff, r⟩
  cases m <;> cases u <;> cases e <;> cases eff <;> cases r <;> decide

/-- Witness for C6 at a matched non-carrier with the strongest evidence. -/
theorem classifyRisk_allele_monotone_witness :
    classifyRisk ⟨true, false, .strong, .high, true⟩ ≠ .very_high
    ∧ classifyRisk ⟨true, false, .strong, .high, true⟩ ≠ .high
    ∧ classifyRisk ⟨true, false, .strong, .high, true⟩ ≠ .moderate :=
  (classifyRisk_allele_monotone ⟨true, false, .strong, .high, true⟩).2 rfl

/-- C7: sortSnps is deterministic (equal inputs give equal outputs) and
idempotent; the input itself is never modified, which in this pure model
holds by construction (the source sorts a spread copy of its argument). -/
theorem sortSnps_deterministic_idempotent (la lb : List SNP) (h : la = lb) :
    sortSnps la = sortSnps lb ∧ sortSnps (sortSnps la) = sortSnps la :=
  ⟨congrArg sortSnps h,
    List.Sorted.insertionSort_eq (List.sorted_insertionSort snpLE la)⟩

/-- Witness for C7 on a concrete two-element list. -/
theorem sortSnps_deterministic_idempotent_witness :
    sortSnps [mkSNP "a" (some "lower") (some 5), mkSNP "b" (some "high") none] =
      sortSnps [mkSNP "a" (some "lower") (some 5), mkSNP "b" (some "high") none]
    ∧ sortSnps (sortSnps [mkSNP "a" (some "lower") (some 5), mkSNP "b" (some "high") none]) =
      sortSnps [mkSNP "a" (some "lower") (some 5), mkSNP "b" (some "high") none] :=
  sortSnps_deterministic_idempotent _ _ rfl

/-- C10: getImportanceBucket is total on the rationals, realises the
threshold table at 50, 30 and 15 with the labelled buckets, and its level
is monotone in the score for the order low < moderate < high < critical. -/
theorem getImportanceBucket_thresholds_monotone (s sa sb : ℚ) (hab : sa ≤ sb) :
    (50 ≤ s → getImportanceBucket s = ⟨"Very Strong", .critical, "#FFEBEE", "#C62828"⟩)
    ∧ (30 ≤ s → s < 50 →
        getImportanceBucket s = ⟨"Strong", .high, "#FFF3E0", "#E65100"⟩)
    ∧ (15 ≤ s → s < 30 →
        getImportanceBucket s = ⟨"Moderate", .moderate, "#FFF9C4", "#F57F17"⟩)
    ∧ (s < 15 → getImportanceBucket s = ⟨"Weak", .low, "#E3F2FD", "#1565C0"⟩)
    ∧ ImportanceLevel.rank (getImportanceBucket sa).level ≤
        ImportanceLevel.rank (getImportanceBucket sb).level := by
  unfold getImportanceBucket
  refine ⟨?_, ?_, ?_, ?_, ?_⟩
  · intro h
    rw [if_pos h]
  · intro h1 h2
    rw [if_neg (not_le.mpr h2), if_pos h1]
  · intro h1 h2
    rw [if_neg (not_le.mpr (by linarith)), if_neg (not_le.mpr h2), if_pos h1]
  · intro h
    rw [if_neg (not_le.mpr (by linarith)), if_neg (not_le.mpr (by linarith)),
      if_neg (not_le.mpr h)]
  · split_ifs <;> first | decide | (exfalso; linarith)

/-- Witness for C10 at the scores 60, 10 and 40. -/
theorem getImportanceBucket_thresholds_monotone_witness :
    getImportanceBucket 60 = ⟨"Very Strong", .critical, "#FFEBEE", "#C62828"⟩
    ∧ ImportanceLevel.rank (getImportanceBucket 10).level ≤
        ImportanceLevel.rank (getImportanceBucket 40).level :=
  ⟨(getImportanceBucket_thresholds_monotone 60 10 40 (by norm_num)).1 (by norm_num),
    (getImportanceBucket_thresholds_monotone 60 10 40 (by norm_num)).2.2.2.2⟩

/-- C8: SNP.fromObject maps userHasRiskAllele to null exactly when the raw
field is null or undefined, and in particular a raw boolean false decodes
to false (the nullish check preserves falsy booleans). -/
theorem fromObject_userHasRiskAllele_nullable (r : RawSNP) :
    ((SNP.fromObject r).userHasRiskAllele = none ↔
      r.userHasRiskAllele = JSPrim.null ∨ r.userHasRiskAllele = JSPrim.undefined)
    ∧ (r.userHasRiskAllele = JSPrim.bool false →
      (SNP.fromObject r).userHasRiskAllele = some false) := by
  have hproj : (SNP.fromObject r).userHasRiskAllele =
      decodeNullableBoolean r.userHasRiskAllele := rfl
  constructor
  · rw [hproj]
    cases h : r.userHasRiskAllele <;>
      simp [h, decodeNullableBoolean, JSPrim.notNullish, JSPrim.truthy]
  · intro h
    rw [hproj, h]
    rfl

/-- Witness for C8 at a raw SNP whose userHasRiskAllele is boolean false. -/
theorem fromObject_userHasRiskAllele_nullable_witness :
    (SNP.fromObject (rawSNPWith (.num 12) (.bool false))).userHasRiskAllele = some false :=
  (fromObject_userHasRiskAllele_nullable (rawSNPWith (.num 12) (.bool false))).2 rfl

/-- C5 fails on the code: the numeric decoders use JavaScript truthiness, so
the present number 0 decodes to null rather than 0.  This refutes the claim
as stated at importanceScore = 0. -/
theorem fromObject_zero_not_preserved :
    ¬ (∀ (r : RawSNP) (g : RawSummary) (q : ℚ),
        (r.importanceScore = JSPrim.num q →
          (SNP.fromObject r).importanceScore = some q)
        ∧ (g.totalSnps = JSPrim.num q →
          (GenomeAnalysisSummary.fromObject g).totalSnps = some q)) := by
  intro h
  have h0 := (h (rawSNPWith (.num 0) .null) ⟨.num 0, .num 0, .num 0, .num 0⟩ 0).1 rfl
  exact absurd h0 (by decide)

/-- C5 as amended: decoding preserves every present nonzero numeric value of
importanceScore and of the four summary counts; a present 0 is falsy and
decodes to null instead. -/
theorem fromObject_preserves_nonzero_numbers (r : RawSNP) (g : RawSummary) (q : ℚ)
    (hq : q ≠ 0) :
    (r.importanceScore = JSPrim.num q → (SNP.fromObject r).importanceScore = some q)
    ∧ (g.totalSnps = JSPrim.num q →
        (GenomeAnalysisSummary.fromObject g).totalSnps = some q)
    ∧ (g.matchedSnps = JSPrim.num q →
        (GenomeAnalysisSummary.fromObject g).matchedSnps = some q)
    ∧ (g.totalAssociations = JSPrim.num q →
        (GenomeAnalysisSummary.fromObject g).totalAssociations = some q)
    ∧ (g.clinvarCount = JSPrim.num q →
        (GenomeAnalysisSummary.fromObject g).clinvarCount = some q) := by
  have key : decodeTruthyNumber (JSPrim.num q) = some q := by
    simp [decodeTruthyNumber, JSPrim.truthy, JSPrim.toNumberJS, hq]
  refine ⟨?_, ?_, ?_, ?_, ?_⟩ <;> intro h <;>
    simp [SNP.fromObject, GenomeAnalysisSummary.fromObject, h, key]

/-- Witness for the amended C5 at the value 42. -/
theorem fromObject_preserves_nonzero_numbers_witness :
    (SNP.fromObject (rawSNPWith (.num 42) .null)).importanceScore = some 42
    ∧ (GenomeAnalysisSummary.fromObject ⟨.num 42, .num 42, .num 42, .num 42⟩).totalSnps =
        some 42 := by
  have h := fromObject_preserves_nonzero_numbers (rawSNPWith (.num 42) .null)
    ⟨.num 42, .num 42, .num 42, .num 42⟩ 42 (by norm_num)
  exact ⟨h.1 rfl, h.2.1 rfl⟩

/-- One toggle keeps the subscription set within the one-subscription cap. -/
theorem toggleCategorySubscription_card_le (st : SubscriptionViewState) (c : String)
    (h : st.subscribedCategories.card ≤ 1) :
    (toggleCategorySubscription st c).subscribedCategories.card ≤ 1 := by
  unfold toggleCategorySubscription
  split_ifs with h1 h2
  · exact le_trans (Finset.card_erase_le) h
  · exact h
  · have h0 : st.subscribedCategories.card = 0 := by omega
    have he : st.subscribedCategories = ∅ := Finset.card_eq_zero.mp h0
    simp [he]

/-- Folding any sequence of toggles keeps the cap. -/
theorem foldl_toggle_card_le (ops : List String) :
    ∀ st : SubscriptionViewState, st.subscribedCategories.card ≤ 1 →
      ((ops.foldl toggleCategorySubscription st).subscribedCategories.card ≤ 1) := by
  induction ops with
  | nil => exact fun st h => h
  | cons c cs ih => exact fun st h => ih _ (toggleCategorySubscription_card_le st c h)

/-- C9: every sequence of toggleCategorySubscription operations preserves
the at-most-one-subscription invariant; toggling a subscribed category
removes it, and toggling a new category while a subscription exists leaves
the set unchanged and shows the paid-subscription popup. -/
theorem toggleCategorySubscription_at_most_one (st : SubscriptionViewState)
    (hst : st.subscribedCategories.card ≤ 1) (ops : List String) :
    ((ops.foldl toggleCategorySubscription st).subscribedCategories.card ≤ 1)
    ∧ (∀ c ∈ st.subscribedCategories,
        (toggleCategorySubscription st c).subscribedCategories =
          st.subscribedCategories.erase c)
    ∧ (∀ c, c ∉ st.subscribedCategories → 1 ≤ st.subscribedCategories.card →
        (toggleCategorySubscription st c).subscribedCategories = st.subscribedCategories
        ∧ (toggleCategorySubscription st c).showSubscriptionPopup = true) := by
  refine ⟨foldl_toggle_card_le ops st hst, ?_, ?_⟩
  · intro c hc
    unfold toggleCategorySubscription
    rw [if_pos hc]
  · intro c hc h1
    unfold toggleCategorySubscription
    rw [if_neg hc, if_pos h1]
    exact ⟨rfl, rfl⟩

/-- A concrete state with exactly one subscription. -/
def subStateOne : SubscriptionViewState := ⟨{"cardio"}, false⟩

/-- Witness for C9 on a concrete one-subscription state. -/
theorem toggleCategorySubscription_at_most_one_witness :
    ((["metabolism", "cardio"].foldl toggleCategorySubscription subStateOne).subscribedCategories.card ≤ 1)
    ∧ (toggleCategorySubscription subStateOne "cardio").subscribedCategories =
        subStateOne.subscribedCategories.erase "cardio"
    ∧ (toggleCategorySubscription subStateOne "metabolism").subscribedCategories =
        subStateOne.subscribedCategories
    ∧ (toggleCategorySubscription subStateOne "metabolism").showSubscriptionPopup = true := by
  have h := toggleCategorySubscription_at_most_one subStateOne (by decide)
    ["metabolism", "cardio"]
  refine ⟨h.1, h.2.1 "cardio" (by decide), ?_, ?_⟩
  · exact (h.2.2 "metabolism" (by decide) (by decide)).1
  · exact (h.2.2 "metabolism" (by decide) (by decide)).2

/-- A take of a sorted list is sorted. -/
theorem sorted_take_snpLE (order : List SNP) (hs : List.Sorted snpLE order) (n : ℕ) :
    List.Sorted snpLE (order.take n) :=
  List.Pairwise.sublist (List.take_sublist n order) hs

/-- After k loadMore calls the loaded list is exactly the first 20·k entries
of the precomputed order, and totalCount is its length. -/
theorem loadMoreIter_snps (order : List SNP) (hs : List.Sorted snpLE order) :
    ∀ k : ℕ, (loadMoreIter order k).snps = order.take (20 * k)
      ∧ (loadMoreIter order k).totalCount = order.length := by
  intro k
  induction k with
  | zero => exact ⟨rfl, rfl⟩
  | succ k ih =>
    obtain ⟨ih1, ih2⟩ := ih
    constructor
    · show sortSnps ((loadMoreIter order k).snps ++
        ((order.drop (loadMoreIter order k).snps.length).take 20)) = order.take (20 * (k + 1))
      rw [ih1]
      rcases le_or_lt (20 * k) order.length with hle | hlt
      · have hlen : (order.take (20 * k)).length = 20 * k := List.length_take_of_le hle
        rw [hlen, ← List.take_add]
        have h20 : 20 * k + 20 = 20 * (k + 1) := by ring
        rw [h20]
        exact List.Sorted.insertionSort_eq (sorted_take_snpLE order hs _)
      · have htk : order.take (20 * k) = order := List.take_of_length_le (le_of_lt hlt)
        rw [htk, List.drop_length]
        simp only [List.take_nil, List.append_nil]
        rw [List.take_of_length_le (by omega : order.length ≤ 20 * (k + 1))]
        exact List.Sorted.insertionSort_eq hs
    · rfl

/-- hasMore is always the comparison of the loaded count with totalCount. -/
theorem loadMoreIter_hasMore_eq (order : List SNP) (k : ℕ) :
    (loadMoreIter order k).hasMore =
      decide ((loadMoreIter order k).snps.length < (loadMoreIter order k).totalCount) := by
  cases k <;> rfl

/-- C3: with the server holding a fixed precomputed per-category order
(modelled from the spec as a stable offset/limit slice endpoint), the same
page request always yields the same result, and the client's loadMore loop
— next offset = number already loaded, pages of 20, merged through
sortSnps — reconstructs the precomputed order exactly: after k calls it
holds precisely the first 20·k entries of the order (so no duplicates and
no gaps), the whole order once 20·k covers it, and hasMore is false exactly
when the loaded count has reached totalCount. -/
theorem listCategorySnps_pagination_reconstruct (order : List SNP)
    (hs : List.Sorted snpLE order) (offset lim k : ℕ) :
    serverListCategorySnps order offset lim = serverListCategorySnps order offset lim
    ∧ (loadMoreIter order k).snps = order.take (20 * k)
    ∧ (order.length ≤ 20 * k → (loadMoreIter order k).snps = order)
    ∧ (loadMoreIter order k).totalCount = order.length
    ∧ ((loadMoreIter order k).hasMore = false ↔
        (loadMoreIter order k).snps.length = (loadMoreIter order k).totalCount) := by
  obtain ⟨h1, h2⟩ := loadMoreIter_snps order hs k
  refine ⟨rfl, h1, ?_, h2, ?_⟩
  · intro hk
    rw [h1]
    exact List.take_of_length_le hk
  · rw [loadMoreIter_hasMore_eq, h2, h1, List.length_take]
    simp only [decide_eq_false_iff_not, not_lt]
    omega

/-- A concrete two-element precomputed order, already risk-sorted. -/
def orderExample : List SNP :=
  [mkSNP "a" (some "very_high") (some 9), mkSNP "b" (some "high") (some 5)]

/-- Witness for C3 on the concrete order after one loadMore call. -/
theorem listCategorySnps_pagination_reconstruct_witness :
    (loadMoreIter orderExample 1).snps = orderExample.take (20 * 1)
    ∧ ((loadMoreIter orderExample 1).hasMore = false ↔
        (loadMoreIter orderExample 1).snps.length = (loadMoreIter orderExample 1).totalCount) := by
  have h := listCategorySnps_pagination_reconstruct orderExample (by decide) 0 20 1
  exact ⟨h.2.1, h.2.2.2.2⟩
